import Mathlib

/-!
Verification of the dht11-sensor telemetry agent (src/main.py).

The program is shallowly embedded: pure helpers become Lean functions;
the effectful boundaries (file system, WiFi radio, sensor bus, HTTP
transport) become explicit inputs describing the outcome the external
world produced, and `print` calls become returned lists of log lines.
A Python exception crossing a function boundary becomes `Except.error`.
-/

namespace Dht11

/-- One decimal digit rendered as a character, `0 ↦ '0'`, ..., `9 ↦ '9'`
(callers only pass values below 10). -/
def digitChar (d : Nat) : Char :=
  if d = 0 then '0' else if d = 1 then '1' else if d = 2 then '2'
  else if d = 3 then '3' else if d = 4 then '4' else if d = 5 then '5'
  else if d = 6 then '6' else if d = 7 then '7' else if d = 8 then '8' else '9'

/-- Fuel-driven base-10 rendering accumulator: prepends the digits of `n`
(most significant first) in front of `acc`. -/
def natDigitsAux : Nat → Nat → List Char → List Char
  | 0, _, acc => acc
  | fuel + 1, n, acc =>
    if n < 10 then digitChar n :: acc
    else natDigitsAux fuel (n / 10) (digitChar (n % 10) :: acc)

/-- Decimal digit string of a natural number, as Python renders integers. -/
def natDigits (n : Nat) : List Char :=
  natDigitsAux (n + 1) n []

/-- Decimal string of a natural number. -/
def natToString (n : Nat) : String :=
  String.mk (natDigits n)

/-- Round `10 * n / d` (with `d > 0`) to the nearest integer, ties to even —
the rounding Python float formatting applies for one fractional digit.
Phrased on the numerator and denominator with integer arithmetic:
`f` is the floor of `10 * n / d` and `r2` compares twice the fractional
remainder against the denominator (i.e. the remainder against `1/2`). -/
def roundTenths (n : ℤ) (d : ℕ) : ℤ :=
  let f := Int.fdiv (10 * n) d
  let r2 := 2 * (10 * n - f * d)
  if r2 < (d : ℤ) then f
  else if (d : ℤ) < r2 then f + 1
  else if f % 2 = 0 then f else f + 1

/-- Embedding of the Python f-string conversion `{x:.1f}`: the magnitude is
rounded to one fractional decimal digit (ties to even) and rendered as
`<integer part>.<one digit>`, with a leading minus sign for negative
inputs (Python prints `-0.0` for small negatives; so does this model).
`fixedScaled q` is the magnitude in tenths after rounding. -/
def fixedScaled (q : ℚ) : Nat :=
  (roundTenths (q.num.natAbs : ℤ) q.den).toNat

/-- Renders `q` as `<sign><integer part>.<one fractional digit>`. -/
def formatFixed1 (q : ℚ) : String :=
  String.mk
    (if q.num < 0 then
      '-' :: (natDigits (fixedScaled q / 10) ++ '.' :: natDigits (fixedScaled q % 10))
    else
      natDigits (fixedScaled q / 10) ++ '.' :: natDigits (fixedScaled q % 10))

/-- The line-protocol payload built in the main loop (src/main.py line 128):
`f"dht_sensor,sensor_id=esp8266 temperature={temperature:.1f},humidity={humidity:.1f}"`. -/
def format_data (temperature humidity : ℚ) : String :=
  "dht_sensor,sensor_id=esp8266 temperature=" ++ formatFixed1 temperature
    ++ ",humidity=" ++ formatFixed1 humidity

/-! ## Configuration (config.json as read by the program)

The program reads the sections `wifi` and `influxdb` and the top-level
key `reading_wait_time`; every key may be absent (`dict.get`). -/

/-- The `wifi` section of config.json. -/
structure WifiConfig where
  ssid : Option String
  key : Option String
deriving DecidableEq

/-- The `influxdb` section of config.json. -/
structure InfluxdbConfig where
  host : Option String
  port : Option Nat
  bucket : Option String
  org : Option String
  token : Option String
deriving DecidableEq

/-- The configuration mapping, restricted to the keys the program reads.
An absent key is `none`; an absent section is `none`. -/
structure Config where
  wifi : Option WifiConfig
  influxdb : Option InfluxdbConfig
  reading_wait_time : Option Nat
deriving DecidableEq

/-- The empty mapping `{}`: every section and key absent. -/
def emptyConfig : Config :=
  ⟨none, none, none⟩

/-- The `influxdb` section with every key absent: what
`config.get("influxdb", {})` yields when the section is missing. -/
def emptyInfluxdb : InfluxdbConfig :=
  ⟨none, none, none, none, none⟩

/-- Python `str` of an optional string: `None` renders as `"None"`,
a present string renders as itself (`str.format` interpolation). -/
def pyStrOpt (o : Option String) : String :=
  o.getD "None"

/-- Default wait time between readings (src/main.py line 10). -/
def DEFAULT_WAIT_TIME : Nat := 60

/-! ## load_config (src/main.py lines 13–22) -/

/-- Outcome of opening and JSON-decoding the config file: the file may be
missing, its contents may fail to decode, or decoding yields a mapping. -/
inductive FileResult where
  | notFound
  | malformed
  | parsed (c : Config)
deriving DecidableEq

/-- `load_config(config_file)`: returns the loaded mapping together with the
diagnostics printed. A missing file or invalid JSON each print their own
message and leave `config = {}`. -/
def load_config (file : FileResult) (config_file : String) : Config × List String :=
  match file with
  | .notFound =>
    (emptyConfig, ["Error: Config file '" ++ config_file ++ "' not found."])
  | .malformed =>
    (emptyConfig, ["Error: Invalid JSON format in config file '" ++ config_file ++ "'."])
  | .parsed c => (c, [])

/-! ## connect_to_wifi (src/main.py lines 25–37)

Wall-clock time is modelled in whole seconds: `time.sleep(1)` advances it
by one, and nothing else in the loop takes time. `assoc0` is whether the
interface is already associated before the attempt; `linkUp k` is whether
association has succeeded `k` seconds after `wlan.connect` was issued. -/

/-- The polling loop of `connect_to_wifi`: at elapsed time `k` it first
checks the `while not wlan.isconnected()` condition, then the
`time.time() - start_time > timeout_sec` guard, then sleeps one second.
`fuel` bounds the structural recursion; `connect_to_wifi` supplies enough
fuel for the loop to reach its timeout. Returns the outcome and the
elapsed wall-clock seconds when the function returns. -/
def connectPoll (linkUp : Nat → Bool) (timeout_sec : Nat) : Nat → Nat → Bool × Nat
  | 0, k => (false, k)
  | fuel + 1, k =>
    if linkUp k then (true, k)
    else if timeout_sec < k then (false, k)
    else connectPoll linkUp timeout_sec fuel (k + 1)

/-- `connect_to_wifi(ssid, key, timeout_sec)`: success immediately when the
interface is already connected; otherwise initiate association and poll
once per second until connected or until elapsed time exceeds the
timeout. The ssid/key do not influence the control flow — they only feed
`wlan.connect` — so they are not parameters of the model. -/
def connect_to_wifi (assoc0 : Bool) (linkUp : Nat → Bool) (timeout_sec : Nat := 30) :
    Bool × Nat :=
  if assoc0 then (true, 0)
  else connectPoll linkUp timeout_sec (timeout_sec + 2) 0

/-! ## Sensor sampling (src/main.py lines 51–60) -/

/-- `get_temperature_and_humidity(sensor)`: the three sensor-bus operations
`measure()`, `temperature()` and `humidity()` may each fail with an
`OSError` (carried as its message). The first failure aborts the `try`
block; the handler prints a diagnostic and returns `(None, None)`.
Returns the pair together with the diagnostics printed. -/
def get_temperature_and_humidity (measure : Except String Unit)
    (temp : Except String ℚ) (hum : Except String ℚ) :
    (Option ℚ × Option ℚ) × List String :=
  match measure with
  | .error e => ((none, none), ["Error reading DHT11 sensor: " ++ e])
  | .ok _ =>
    match temp with
    | .error e => ((none, none), ["Error reading DHT11 sensor: " ++ e])
    | .ok t =>
      match hum with
      | .error e => ((none, none), ["Error reading DHT11 sensor: " ++ e])
      | .ok h => ((some t, some h), [])

/-! ## InfluxDB endpoint (src/main.py lines 63–95) -/

/-- `set_influxdb_headers(config)`: the three HTTP headers, in dict order.
`influxdb_config.get('token')` is `None` when absent, and the f-string
renders it as the text `None`. -/
def set_influxdb_headers (config : Config) : List (String × String) :=
  let influxdb_config := config.influxdb.getD emptyInfluxdb
  [("Authorization", "Token " ++ pyStrOpt influxdb_config.token),
   ("Content-Type", "text/plain; charset=utf-8"),
   ("Accept", "application/json")]

/-- `get_influxdb_url(config)`: composes
`{host}:{port}/api/v2/write?org={org}&bucket={bucket}&precision=ns`.
`host` and `port` have defaults; `bucket` and `org` fall back to `None`
and are rendered by `str.format` as the text `None`. -/
def get_influxdb_url (config : Config) : String :=
  let influxdb_config := config.influxdb.getD emptyInfluxdb
  let host := influxdb_config.host.getD "localhost"
  let port := influxdb_config.port.getD 8086
  host ++ ":" ++ natToString port ++ "/api/v2/write?org="
    ++ pyStrOpt influxdb_config.org ++ "&bucket=" ++ pyStrOpt influxdb_config.bucket
    ++ "&precision=ns"

/-- Outcome of `requests.post`: either an HTTP response (status code and
body) or a transport-level exception raised while issuing the request. -/
inductive PostResult where
  | resp (status_code : Nat) (text : String)
  | transportError (e : String)
deriving DecidableEq

/-- `send_to_influxdb(url, headers, data)` (src/main.py lines 85–95): the
call `requests.post(...)` is not wrapped in any try/except, so a
transport-level exception propagates out of the function
(`Except.error`). Given a response, status 204 prints the success line;
any other status prints the failure diagnostics; the function returns
`None` either way. The result carries the lines printed. -/
def send_to_influxdb (post : PostResult) : Except String (List String) :=
  match post with
  | .transportError e => .error e
  | .resp status_code text =>
    if status_code = 204 then .ok ["Data sent to InfluxDB"]
    else .ok ["Failed to send data to InfluxDB",
              "Status code: " ++ natToString status_code,
              "Response: " ++ text]

/-! ## The steady-state loop body (src/main.py lines 123–136) -/

/-- The wait time used at the end of each cycle:
`config.get("reading_wait_time", DEFAULT_WAIT_TIME)`. -/
def cycle_wait_time (config : Config) : Nat :=
  config.reading_wait_time.getD DEFAULT_WAIT_TIME

/-- One iteration of the `while True` loop: sample; if both values are
present, format the payload, print it and post it (the post's outcome is
the `post` input); then sleep `cycle_wait_time config` seconds. There is
no try/except in the loop, so an exception escaping `send_to_influxdb`
terminates the loop (`Except.error`). On completion the result carries
the lines printed this cycle and the sleep duration. -/
def loopCycle (config : Config) (measure : Except String Unit)
    (temp : Except String ℚ) (hum : Except String ℚ) (post : PostResult) :
    Except String (List String × Nat) :=
  let sampled := get_temperature_and_humidity measure temp hum
  match sampled.1 with
  | (some t, some h) =>
    match send_to_influxdb post with
    | .error e => .error e
    | .ok sendLogs =>
      .ok (sampled.2 ++ ("Data: " ++ format_data t h) :: sendLogs, cycle_wait_time config)
  | _ => .ok (sampled.2, cycle_wait_time config)

/-! ## Bootstrap (src/main.py lines 98–120) -/

/-- What the bootstrap phase left behind: either the process exited with a
status code, or it is running the steady loop with the endpoint built
and the sensor initialised on pin 4. -/
inductive BootOutcome where
  | exited (code : Nat)
  | running (headers : List (String × String)) (url : String) (sensor_pin : Nat)
deriving DecidableEq

/-- The bootstrap sequence: after `load_config` and the WiFi attempt, a
failed connect reaches `sys.exit(1)` before any header/URL construction
or sensor initialisation; a successful connect builds the headers and
URL from the loaded config and initialises the DHT sensor on pin 4. -/
def bootstrap (config : Config) (connected : Bool) : BootOutcome :=
  if connected then
    .running (set_influxdb_headers config) (get_influxdb_url config) 4
  else
    .exited 1

/-- The `influxdb` token the program reads:
`config.get("influxdb", {}).get("token")`. -/
def influxdbToken (config : Config) : Option String :=
  (config.influxdb.getD emptyInfluxdb).token

/-! ## Helper lemmas about decimal rendering -/

lemma digitChar_ne_dot (d : Nat) : digitChar d ≠ '.' := by
  unfold digitChar
  split_ifs <;> decide

lemma digitChar_isDigit (d : Nat) (h : d < 10) : (digitChar d).isDigit = true := by
  interval_cases d <;> decide

lemma natDigitsAux_ne_dot :
    ∀ (fuel n : Nat) (acc : List Char), (∀ c ∈ acc, c ≠ '.') →
      ∀ c ∈ natDigitsAux fuel n acc, c ≠ '.' := by
  intro fuel
  induction fuel with
  | zero => intro n acc hacc c hc; exact hacc c hc
  | succ fuel ih =>
    intro n acc hacc c hc
    unfold natDigitsAux at hc
    by_cases h : n < 10
    · simp only [if_pos h, List.mem_cons] at hc
      rcases hc with hc | hc
      · exact hc ▸ digitChar_ne_dot n
      · exact hacc c hc
    · simp only [if_neg h] at hc
      refine ih (n / 10) (digitChar (n % 10) :: acc) ?_ c hc
      intro c' hmem
      rw [List.mem_cons] at hmem
      rcases hmem with hmem | hmem
      · exact hmem ▸ digitChar_ne_dot (n % 10)
      · exact hacc c' hmem

lemma natDigits_ne_dot (n : Nat) : ∀ c ∈ natDigits n, c ≠ '.' :=
  natDigitsAux_ne_dot (n + 1) n [] (by simp)

lemma natDigits_single (n : Nat) (h : n < 10) : natDigits n = [digitChar n] := by
  simp [natDigits, natDigitsAux, h]

/-- The rendered value always ends in a dot followed by exactly one digit
character, and the dot separating the fractional part is the only dot. -/
lemma formatFixed1_shape (q : ℚ) :
    ∃ (pre : List Char) (c : Char), (formatFixed1 q).data = pre ++ ['.', c]
      ∧ c.isDigit = true ∧ '.' ∉ pre := by
  have h10 : fixedScaled q % 10 < 10 := Nat.mod_lt _ (by norm_num)
  have hsingle : natDigits (fixedScaled q % 10) = [digitChar (fixedScaled q % 10)] :=
    natDigits_single _ h10
  by_cases hneg : q.num < 0
  · refine ⟨'-' :: natDigits (fixedScaled q / 10), digitChar (fixedScaled q % 10), ?_,
      digitChar_isDigit _ h10, ?_⟩
    · show (if q.num < 0 then _ else _) = _
      rw [if_pos hneg, hsingle, List.cons_append]
    · intro hmem
      rw [List.mem_cons] at hmem
      rcases hmem with hmem | hmem
      · exact absurd hmem (by decide)
      · exact natDigits_ne_dot (fixedScaled q / 10) '.' hmem rfl
  · refine ⟨natDigits (fixedScaled q / 10), digitChar (fixedScaled q % 10), ?_,
      digitChar_isDigit _ h10, ?_⟩
    · show (if q.num < 0 then _ else _) = _
      rw [if_neg hneg, hsingle]
    · intro hmem
      exact natDigits_ne_dot (fixedScaled q / 10) '.' hmem rfl

/-! ## Claims -/

/-- C1: for every reading with both values present, the formatted payload is
the single line `dht_sensor,sensor_id=esp8266 temperature=<t>,humidity=<h>`
with each field rendered with exactly one fractional digit; in particular
for temperature 23.456 and humidity 55.0 the line equals exactly
`dht_sensor,sensor_id=esp8266 temperature=23.5,humidity=55.0`. -/
theorem C1_payload_format :
    (∀ t h : ℚ, format_data t h =
      "dht_sensor,sensor_id=esp8266 temperature=" ++ formatFixed1 t
        ++ ",humidity=" ++ formatFixed1 h)
    ∧ (∀ q : ℚ, ∃ (pre : List Char) (c : Char), (formatFixed1 q).data = pre ++ ['.', c]
        ∧ c.isDigit = true ∧ '.' ∉ pre)
    ∧ format_data (mkRat 23456 1000) (mkRat 55 1) =
        "dht_sensor,sensor_id=esp8266 temperature=23.5,humidity=55.0" := by
  refine ⟨fun t h => rfl, formatFixed1_shape, ?_⟩
  decide

/-- C2 counterexample: for the empty configuration (no `influxdb` section)
the URL produced by `get_influxdb_url` is not the one with empty `org` and
`bucket` query parameters that the claim describes. -/
theorem C2_counterexample :
    get_influxdb_url emptyConfig ≠
      "localhost:8086/api/v2/write?org=&bucket=&precision=ns" := by
  decide

/-- C2 (amended): for every Config whose `influxdb` section is absent,
`get_influxdb_url` returns a URL with host `localhost` and port 8086 and
does not throw, but the `org` and `bucket` query parameters carry the text
`None` (Python renders the absent values as `None`), not the empty string. -/
theorem C2_default_url (config : Config) (h : config.influxdb = none) :
    get_influxdb_url config =
      "localhost:8086/api/v2/write?org=None&bucket=None&precision=ns" := by
  obtain ⟨w, i, r⟩ := config
  have h' : i = none := h
  subst h'
  have hsame : get_influxdb_url ⟨w, none, r⟩ = get_influxdb_url emptyConfig := rfl
  rw [hsame]
  decide

/-- C2 witness: the amended theorem applied to the empty configuration. -/
theorem C2_default_url_witness :
    emptyConfig.influxdb = none ∧
      get_influxdb_url emptyConfig =
        "localhost:8086/api/v2/write?org=None&bucket=None&precision=ns" :=
  ⟨rfl, C2_default_url emptyConfig rfl⟩

/-- C7: if the startup WiFi attempt returns failure, the process exits with
status 1 and nothing of the steady state comes into being (no headers, no
URL, no sensor); on success the process runs with the endpoint derived
from the loaded config and the sensor on pin 4. -/
theorem C7_exit_on_wifi_failure (config : Config) :
    bootstrap config false = .exited 1
    ∧ (∀ (hs : List (String × String)) (u : String) (p : Nat),
        bootstrap config false ≠ .running hs u p)
    ∧ bootstrap config true =
        .running (set_influxdb_headers config) (get_influxdb_url config) 4 := by
  refine ⟨rfl, ?_, rfl⟩
  intro hs u p hcontra
  simp [bootstrap] at hcontra

/-- C10: the headers are exactly the three listed ones, with Content-Type
and Accept fixed, and an absent token yields the literal Authorization
value `Token None` rather than an omitted or empty header. -/
theorem C10_headers (config : Config) :
    (set_influxdb_headers config).length = 3
    ∧ set_influxdb_headers config =
        [("Authorization", "Token " ++ pyStrOpt (influxdbToken config)),
         ("Content-Type", "text/plain; charset=utf-8"),
         ("Accept", "application/json")]
    ∧ (influxdbToken config = none →
        set_influxdb_headers config =
          [("Authorization", "Token None"),
           ("Content-Type", "text/plain; charset=utf-8"),
           ("Accept", "application/json")]) := by
  refine ⟨rfl, rfl, fun h => ?_⟩
  have h' : (config.influxdb.getD emptyInfluxdb).token = none := h
  have hunfold : set_influxdb_headers config =
      [("Authorization", "Token " ++ pyStrOpt (config.influxdb.getD emptyInfluxdb).token),
       ("Content-Type", "text/plain; charset=utf-8"),
       ("Accept", "application/json")] := rfl
  rw [hunfold, h']
  decide

/-- C8: `load_config` returns the empty mapping rather than aborting when
the file is missing or its structure malformed, printing a diagnostic that
distinguishes the two failure kinds; a well-formed file yields the parsed
mapping with no diagnostic. -/
theorem C8_load_config_recovery (p : String) (c : Config) :
    load_config .notFound p =
      (emptyConfig, ["Error: Config file '" ++ p ++ "' not found."])
    ∧ load_config .malformed p =
      (emptyConfig, ["Error: Invalid JSON format in config file '" ++ p ++ "'."])
    ∧ (load_config .notFound p).2 ≠ (load_config .malformed p).2
    ∧ load_config (.parsed c) p = (c, []) := by
  refine ⟨rfl, rfl, ?_, rfl⟩
  intro heq
  simp only [load_config, List.cons.injEq, and_true] at heq
  have hlen := congrArg String.length heq
  rw [String.length_append, String.length_append, String.length_append,
    String.length_append] at hlen
  have l1 : ("Error: Config file '" : String).length = 20 := by decide
  have l2 : ("' not found." : String).length = 12 := by decide
  have l3 : ("Error: Invalid JSON format in config file '" : String).length = 43 := by decide
  have l4 : ("'." : String).length = 2 := by decide
  rw [l1, l2, l3, l4] at hlen
  omega

/-- C4: sampling returns either two present values or two absent values,
never one of each; any I/O failure (in `measure()`, `temperature()` or
`humidity()`) yields `(None, None)` with a printed diagnostic instead of a
propagating exception. -/
theorem C4_sample_all_or_nothing (measure : Except String Unit)
    (temp hum : Except String ℚ) :
    ((get_temperature_and_humidity measure temp hum).1 = (none, none)
      ∨ ∃ t h, (get_temperature_and_humidity measure temp hum).1 = (some t, some h))
    ∧ (measure.isOk = false ∨ temp.isOk = false ∨ hum.isOk = false →
        (get_temperature_and_humidity measure temp hum).1 = (none, none)
        ∧ (get_temperature_and_humidity measure temp hum).2 ≠ []) := by
  rcases measure with em | mu <;> rcases temp with et | tv <;> rcases hum with eh | hv <;>
    simp [get_temperature_and_humidity, Except.isOk, Except.toBool]

/-- C4 witness: a failing `measure()` call yields `(None, None)` and a
diagnostic. -/
theorem C4_sample_all_or_nothing_witness :
    (get_temperature_and_humidity (.error "ETIMEDOUT") (.ok (mkRat 21 1))
        (.ok (mkRat 40 1))).1 = (none, none)
    ∧ (get_temperature_and_humidity (.error "ETIMEDOUT") (.ok (mkRat 21 1))
        (.ok (mkRat 40 1))).2 ≠ [] :=
  (C4_sample_all_or_nothing (.error "ETIMEDOUT") (.ok (mkRat 21 1))
    (.ok (mkRat 40 1))).2 (Or.inl rfl)

/-- C5: `send_to_influxdb` given an HTTP response classifies exactly status
204 as success and every other status as a failure logged with the status
code and response body, and it does not raise on any response. -/
theorem C5_status_classification (s : Nat) (txt : String) :
    (send_to_influxdb (.resp s txt)).isOk = true
    ∧ (send_to_influxdb (.resp s txt) = .ok ["Data sent to InfluxDB"] ↔ s = 204)
    ∧ (s ≠ 204 → send_to_influxdb (.resp s txt) =
        .ok ["Failed to send data to InfluxDB",
             "Status code: " ++ natToString s,
             "Response: " ++ txt]) := by
  by_cases hs : s = 204 <;> simp [send_to_influxdb, hs, Except.isOk, Except.toBool]

/-- C5 witness: status 400 is classified as a failure with the status code
and body logged. -/
theorem C5_status_classification_witness :
    (400 : Nat) ≠ 204
    ∧ send_to_influxdb (.resp 400 "bad request") =
        .ok ["Failed to send data to InfluxDB",
             "Status code: " ++ natToString 400,
             "Response: " ++ "bad request"] :=
  ⟨by decide, (C5_status_classification 400 "bad request").2.2 (by decide)⟩

/-- C3 counterexample: with values sampled and the POST raising a
transport-level error, the exception propagates out of the cycle — the
steady-state loop terminates instead of recovering locally. -/
theorem C3_counterexample :
    loopCycle emptyConfig (.ok ()) (.ok (mkRat 21 1)) (.ok (mkRat 40 1))
        (.transportError "connection reset") = .error "connection reset" := rfl

/-- C3 (amended): a delivery failure reported as a non-204 HTTP response is
recovered locally — the cycle completes for every sampling outcome and
every status code — but a transport-level error raised while issuing the
POST propagates and terminates the steady-state loop. -/
theorem C3_cycle_failure_handling (config : Config) (measure : Except String Unit)
    (temp hum : Except String ℚ) (s : Nat) (txt e : String) (t h : ℚ) :
    (loopCycle config measure temp hum (.resp s txt)).isOk = true
    ∧ loopCycle config (.ok ()) (.ok t) (.ok h) (.transportError e) = .error e := by
  constructor
  · by_cases hs : s = 204 <;>
      rcases measure with em | mu <;> rcases temp with et | tv <;> rcases hum with eh | hv <;>
        simp [loopCycle, get_temperature_and_humidity, send_to_influxdb, hs, Except.isOk, Except.toBool]
  · rfl

/-! ### connect_to_wifi lemmas (C6) -/

lemma connectPoll_stall (linkUp : Nat → Bool) (T : Nat) (hstall : ∀ k, linkUp k = false) :
    ∀ fuel k, fuel + k = T + 2 → 1 ≤ fuel → connectPoll linkUp T fuel k = (false, T + 1) := by
  intro fuel
  induction fuel with
  | zero => intro k hk h1; exact absurd h1 (by omega)
  | succ fuel ih =>
    intro k hk h1
    unfold connectPoll
    simp only [hstall k, Bool.false_eq_true, if_false]
    by_cases hT : T < k
    · rw [if_pos hT]
      have hk1 : k = T + 1 := by omega
      rw [hk1]
    · rw [if_neg hT]
      exact ih (k + 1) (by omega) (by omega)

lemma connectPoll_elapsed_le (linkUp : Nat → Bool) (T : Nat) :
    ∀ fuel k, k ≤ T + 1 → (connectPoll linkUp T fuel k).2 ≤ T + 1 := by
  intro fuel
  induction fuel with
  | zero => intro k hk; exact hk
  | succ fuel ih =>
    intro k hk
    unfold connectPoll
    by_cases hl : linkUp k = true
    · rw [if_pos hl]; exact hk
    · rw [if_neg hl]
      by_cases hT : T < k
      · rw [if_pos hT]; exact hk
      · rw [if_neg hT]; exact ih (k + 1) (by omega)

/-- C6: `connect_to_wifi` returns success immediately (zero elapsed time)
when already associated; when association never succeeds it returns
failure exactly when the elapsed time first exceeds the timeout, i.e.
after `T + 1` seconds of once-per-second polling; and in every case the
single bounded attempt returns within `T + 1` seconds. -/
theorem C6_connect_bounded (linkUp : Nat → Bool) (T : Nat) :
    connect_to_wifi true linkUp T = (true, 0)
    ∧ ((∀ k, linkUp k = false) → connect_to_wifi false linkUp T = (false, T + 1))
    ∧ (∀ assoc0 : Bool, (connect_to_wifi assoc0 linkUp T).2 ≤ T + 1) := by
  refine ⟨rfl, ?_, ?_⟩
  · intro hstall
    show connectPoll linkUp T (T + 2) 0 = _
    exact connectPoll_stall linkUp T hstall (T + 2) 0 (by omega) (by omega)
  · intro assoc0
    cases assoc0 with
    | false =>
      show (connectPoll linkUp T (T + 2) 0).2 ≤ T + 1
      exact connectPoll_elapsed_le linkUp T (T + 2) 0 (by omega)
    | true =>
      show (0 : Nat) ≤ T + 1
      omega

/-- C6 witness: with the default timeout of 30 seconds and association never
succeeding, the attempt fails after 31 seconds. -/
theorem C6_connect_bounded_witness :
    (∀ k : Nat, (fun _ : Nat => false) k = false)
    ∧ connect_to_wifi false (fun _ : Nat => false) 30 = (false, 31) :=
  ⟨fun _ => rfl, (C6_connect_bounded (fun _ : Nat => false) 30).2.1 (fun _ => rfl)⟩

/-- C9: the inter-cycle sleep duration of a completed steady-state cycle is
60 seconds when `reading_wait_time` is absent from the loaded config and
equals the configured value when present. -/
theorem C9_wait_time (config : Config) (measure : Except String Unit)
    (temp hum : Except String ℚ) (s : Nat) (txt : String) (v : Nat) :
    (config.reading_wait_time = none →
      Except.map Prod.snd (loopCycle config measure temp hum (.resp s txt)) = .ok 60)
    ∧ (config.reading_wait_time = some v →
      Except.map Prod.snd (loopCycle config measure temp hum (.resp s txt)) = .ok v) := by
  have hok : ∀ w : Nat, cycle_wait_time config = w →
      Except.map Prod.snd (loopCycle config measure temp hum (.resp s txt)) = .ok w := by
    intro w hw
    by_cases hs : s = 204 <;>
      rcases measure with em | mu <;> rcases temp with et | tv <;> rcases hum with eh | hv <;>
        simp [loopCycle, get_temperature_and_humidity, send_to_influxdb, hs, Except.map, hw]
  constructor
  · intro hnone
    exact hok 60 (by simp [cycle_wait_time, DEFAULT_WAIT_TIME, hnone])
  · intro hsome
    exact hok v (by simp [cycle_wait_time, hsome])

/-- C9 witness: the empty config has no `reading_wait_time`, and a completed
cycle sleeps 60 seconds. -/
theorem C9_wait_time_witness :
    emptyConfig.reading_wait_time = none
    ∧ Except.map Prod.snd
        (loopCycle emptyConfig (.ok ()) (.ok (mkRat 21 1)) (.ok (mkRat 40 1))
          (.resp 204 "")) = .ok 60 :=
  ⟨rfl, (C9_wait_time emptyConfig (.ok ()) (.ok (mkRat 21 1)) (.ok (mkRat 40 1))
    204 "" 0).1 rfl⟩

/-- C10 witness: a config whose `influxdb` section is present but has no
token gets the literal `Token None` Authorization header. -/
theorem C10_headers_witness :
    influxdbToken ⟨none, some ⟨some "db.local", some 9999, some "b", some "o", none⟩, none⟩
        = none
    ∧ set_influxdb_headers
        ⟨none, some ⟨some "db.local", some 9999, some "b", some "o", none⟩, none⟩ =
        [("Authorization", "Token None"),
         ("Content-Type", "text/plain; charset=utf-8"),
         ("Accept", "application/json")] :=
  ⟨rfl, (C10_headers _).2.2 rfl⟩

end Dht11
